import Mathlib

/-!
Verification of the follow-target mission orchestrator
(src/example/follow_me/follow_me.cpp) against its specification.

The program is embedded shallowly as a trace-producing function: every
interaction of main with the vehicle link and every other observable
side effect becomes an Event, and main becomes a function from an
environment (the results the external collaborators return, and the
items the event loop delivers) to an optional pair of an event trace
and a process exit status.  A result of none means the program blocks
forever inside one of the readiness polls; some (tr, c) means the
process terminates with exit status c after producing trace tr.

Latitude and longitude values are carried through the program verbatim
(the program performs no arithmetic on them), so they are modelled as
exact rationals.
-/

/-- Modelled from the spec: struct FollowMe TargetLocation is declared in the
dronecore library, which is not under src/; the field names follow the spec
data model (latitude_deg, longitude_deg, altitude_m and the three velocity
components).  The callback in main constructs it positionally from
(lat, lon, 0.0, 0, 0, 0). -/
structure TargetLocation where
  latitude_deg : Rat
  longitude_deg : Rat
  altitude_m : Rat
  velocity_north : Rat
  velocity_east : Rat
  velocity_down : Rat
deriving DecidableEq, Repr

/-- Modelled from the spec: the result enums (Action Result, FollowMe Result,
connection result) and their result_str functions live in the dronecore
library, not under src/.  The spec models every command result as the tagged
variant Success or Failure carrying a collaborator-supplied reason string;
the text that result_str appends to a diagnostic is that reason string. -/
inductive CmdResult where
  | success
  | failure (reason : String)
deriving DecidableEq, Repr

/-- Modelled from the spec: one item processed by the cooperative event loop
while io.run() drives it.  The FakeLocationProvider and the telemetry
callback delivery are not under src/; the spec states that the location
relay and the status observer are multiplexed on a single-threaded event
loop driven only during the Following phase, so a loop item is either a
location sample (latitude and longitude) or a flight-mode notification
consumed by the status observer. -/
inductive LoopItem where
  | sample (lat lon : Rat)
  | modeChange
deriving DecidableEq, Repr

/-- One observable step of main: a vehicle-link command, a poll of a
readiness predicate, a sleep, a subscription, the allocation of the follow
session, or a diagnostic line on the error stream.  freeSession is the
event that a release of the follow session would emit; it is part of the
vocabulary so that release claims can be stated. -/
inductive Event where
  | addUdpConnection
  | sleep (seconds : Nat)
  | pollIsConnected
  | pollHealthAllOk
  | arm
  | subscribeFlightMode
  | takeoff
  | startFollowMe
  | allocSession
  | freeSession
  | setTargetLocation (t : TargetLocation)
  | statusCallback
  | stopFollowMe
  | land
  | stderr (msg : String)
deriving DecidableEq, Repr

/-- The environment of one run: every decision the external collaborators
make, read off in program order.  is_connected and health_all_ok give the
value of the corresponding readiness predicate at each successive poll of
the two busy-wait loops; loop lists the items the event loop delivers
before the location feed terminates. -/
structure Env where
  conn_result : CmdResult
  is_connected : Nat → Bool
  health_all_ok : Nat → Bool
  arm_result : CmdResult
  takeoff_result : CmdResult
  start_result : CmdResult
  stop_result : CmdResult
  land_result : CmdResult
  loop : List LoopItem

/-- Index of the first poll at which the predicate holds, among the first
fuel polls; none when the predicate stays false that long (the while loop
of main has not exited within fuel iterations). -/
def pollUntil (pred : Nat → Bool) (fuel : Nat) : Option Nat :=
  (List.range fuel).find? pred

/-- Trace of one busy-wait loop of main: k failed polls, each followed by a
one-second sleep, then the successful poll. -/
def pollLoop (e : Event) : Nat → List Event
  | 0 => [e]
  | k + 1 => e :: Event.sleep 1 :: pollLoop e k

/-- The TargetLocation built by the callback registered in main:
set_target_location with the sample coordinates, altitude 0 and all
velocity components 0 (src line 76). -/
def mkTarget (lat lon : Rat) : TargetLocation :=
  ⟨lat, lon, 0, 0, 0, 0⟩

/-- Modelled from the spec: the events produced while io.run() drives the
event loop.  Each location sample is forwarded by the callback registered
in main (a single set_target_location call, src line 76); each flight-mode
notification runs the status observer callback, which only prints. -/
def loopEvents : List LoopItem → List Event
  | [] => []
  | .sample lat lon :: rest => Event.setTargetLocation (mkTarget lat lon) :: loopEvents rest
  | .modeChange :: rest => Event.statusCallback :: loopEvents rest

/-- Landing section of main: issue land; on failure print the diagnostic
and exit 1 (action_error_exit); on success keep watching telemetry for five
seconds and return 0. -/
def stageLand (env : Env) (tr : List Event) : List Event × Nat :=
  match env.land_result with
  | .failure r => (tr ++ [Event.land, Event.stderr ("Landing failed" ++ r)], 1)
  | .success => (tr ++ [Event.land, Event.sleep 5], 0)

/-- Stop-follow section of main: issue stop; on failure print the
diagnostic and exit 1 (follow_me_error_exit); on success continue with
landing. -/
def stageStop (env : Env) (tr : List Event) : List Event × Nat :=
  match env.stop_result with
  | .failure r => (tr ++ [Event.stopFollowMe, Event.stderr ("Failed to stop FollowMe mode" ++ r)], 1)
  | .success => stageLand env (tr ++ [Event.stopFollowMe])

/-- Start-follow section of main: issue start; on failure print the
diagnostic and exit 1; on success allocate the FakeLocationProvider with
its subscription (a raw new whose pointer is immediately discarded, src
line 75) and run the event loop to exhaustion, then continue with
stop-follow. -/
def stageStart (env : Env) (tr : List Event) : List Event × Nat :=
  match env.start_result with
  | .failure r => (tr ++ [Event.startFollowMe, Event.stderr ("Failed to start FollowMe mode" ++ r)], 1)
  | .success =>
    stageStop env (tr ++ Event.startFollowMe :: Event.allocSession :: loopEvents env.loop)

/-- Takeoff section of main: issue takeoff; on failure print the diagnostic
and exit 1; on success sleep five seconds and continue with start-follow. -/
def stageTakeoff (env : Env) (tr : List Event) : List Event × Nat :=
  match env.takeoff_result with
  | .failure r => (tr ++ [Event.takeoff, Event.stderr ("Takeoff failed" ++ r)], 1)
  | .success => stageStart env (tr ++ [Event.takeoff, Event.sleep 5])

/-- Arm section of main: issue arm; on failure print the diagnostic and
exit 1; on success register the flight-mode subscription and continue with
takeoff. -/
def stageArm (env : Env) (tr : List Event) : List Event × Nat :=
  match env.arm_result with
  | .failure r => (tr ++ [Event.arm, Event.stderr ("Arming failed" ++ r)], 1)
  | .success => stageTakeoff env (tr ++ [Event.arm, Event.subscribeFlightMode])

/-- Shallow embedding of main (src/example/follow_me/follow_me.cpp):
add the UDP connection, exit 1 with a diagnostic if that fails, busy-wait
for is_connected and then for health_all_ok polling once per second, and
then run the arm, takeoff, start-follow, event-loop, stop-follow and land
sections in order.  fuel bounds how many polls of each busy-wait loop are
examined: none means the program is still blocked in a readiness poll
after fuel polls, whatever fuel is. -/
def runMain (env : Env) (fuel : Nat) : Option (List Event × Nat) :=
  match env.conn_result with
  | .failure r => some ([Event.addUdpConnection, Event.stderr ("Connection failed" ++ r)], 1)
  | .success =>
    match pollUntil env.is_connected fuel, pollUntil env.health_all_ok fuel with
    | some k1, some k2 =>
      some (stageArm env
        (Event.addUdpConnection ::
          (pollLoop Event.pollIsConnected k1 ++ pollLoop Event.pollHealthAllOk k2)))
    | _, _ => none

/-- True exactly on set_target_location events. -/
def isSetTarget : Event → Bool
  | .setTargetLocation _ => true
  | _ => false

/-- True exactly on event-loop callback activity: a relay push or a status
observer callback. -/
def isLoopActivity : Event → Bool
  | .setTargetLocation _ => true
  | .statusCallback => true
  | _ => false

/-- True exactly on the allocation of the follow session. -/
def isAllocSession : Event → Bool
  | .allocSession => true
  | _ => false

/-- True on every event that may occur only while the Following phase is
active: loop callback activity and the session allocation. -/
def isFollowingOnly : Event → Bool
  | .setTargetLocation _ => true
  | .statusCallback => true
  | .allocSession => true
  | _ => false

/-- True exactly on the five phase-transition commands of the mission. -/
def isPhaseCmd : Event → Bool
  | .arm => true
  | .takeoff => true
  | .startFollowMe => true
  | .stopFollowMe => true
  | .land => true
  | _ => false

/-- The payload of a set_target_location event, none for any other event. -/
def targetOf : Event → Option TargetLocation
  | .setTargetLocation t => some t
  | _ => none

/-- The target locations pushed into the vehicle link, in trace order. -/
def sentTargets (tr : List Event) : List TargetLocation :=
  tr.filterMap targetOf

/-- The location samples among the items the event loop delivers, in
order. -/
def feedOf : List LoopItem → List (Rat × Rat)
  | [] => []
  | .sample lat lon :: rest => (lat, lon) :: feedOf rest
  | .modeChange :: rest => feedOf rest

/-- Events satisfying p occur only inside one segment of the trace that
begins with the start-follow command and ends with the stop-follow
command: no such event before entering, or after leaving, the Following
phase. -/
def containedInFollowing (p : Event → Bool) (tr : List Event) : Prop :=
  ∃ a b c, tr = a ++ b ++ c ∧
    (∀ e ∈ a, p e = false) ∧ (∀ e ∈ c, p e = false) ∧
    (b = [] ∨ ∃ m, b = Event.startFollowMe :: m ++ [Event.stopFollowMe])

/-- The environment of the nominal scenario: the connection succeeds, the
vehicle is immediately connected and healthy, every command succeeds, and
the feed emits (47.0, 8.5) and then (47.001, 8.501) before terminating. -/
def envNominal : Env :=
  ⟨.success, fun _ => true, fun _ => true, .success, .success, .success, .success, .success,
    [LoopItem.sample 47 8.5, LoopItem.sample 47.001 8.501]⟩

/-- The full event trace of the nominal scenario. -/
def nominalTrace : List Event :=
  [Event.addUdpConnection, Event.pollIsConnected, Event.pollHealthAllOk, Event.arm,
    Event.subscribeFlightMode, Event.takeoff, Event.sleep 5, Event.startFollowMe,
    Event.allocSession, Event.setTargetLocation (mkTarget 47 8.5),
    Event.setTargetLocation (mkTarget 47.001 8.501), Event.stopFollowMe, Event.land,
    Event.sleep 5]

/-- An environment in which the arm command fails with reason "reason" and
everything before it succeeds. -/
def envArmFail : Env :=
  ⟨.success, fun _ => true, fun _ => true, .failure "reason", .success, .success, .success,
    .success, []⟩

/-- An environment in which the vehicle never reports connected. -/
def envNeverConnected : Env :=
  ⟨.success, fun _ => false, fun _ => false, .success, .success, .success, .success,
    .success, []⟩

/-- An environment in which every command succeeds and the location feed
terminates after delivering zero samples. -/
def envEmptyFeed : Env :=
  ⟨.success, fun _ => true, fun _ => true, .success, .success, .success, .success,
    .success, []⟩

/-- An environment whose event loop delivers a flight-mode notification for
the status observer between two location samples. -/
def envObserver : Env :=
  ⟨.success, fun _ => true, fun _ => true, .success, .success, .success, .success, .success,
    [LoopItem.modeChange, LoopItem.sample 1 2]⟩

/-- The full event trace of a run in the envObserver environment. -/
def observerTrace : List Event :=
  [Event.addUdpConnection, Event.pollIsConnected, Event.pollHealthAllOk, Event.arm,
    Event.subscribeFlightMode, Event.takeoff, Event.sleep 5, Event.startFollowMe,
    Event.allocSession, Event.statusCallback, Event.setTargetLocation (mkTarget 1 2),
    Event.stopFollowMe, Event.land, Event.sleep 5]

/-- Modelled from the spec: the TargetRelay component of the spec is not a
distinct unit in src/ (main wires the feed callback directly into the
vehicle link), so its activate and deactivate contract is modelled from the
spec words: the relay state says whether forwarding is active. -/
structure TargetRelay where
  active : Bool
deriving DecidableEq, Repr

/-- Modelled from the spec: activate (session) begins forwarding. -/
def TargetRelay.activate (_r : TargetRelay) : TargetRelay :=
  ⟨true⟩

/-- Modelled from the spec: deactivate stops forwarding; it is meant to be
safe to call repeatedly and during teardown. -/
def TargetRelay.deactivate (_r : TargetRelay) : TargetRelay :=
  ⟨false⟩

/-- Modelled from the spec: the observable behaviour of the relay on a
sequence of location samples: while active, every sample is forwarded as a
target location with altitude and velocity components zero; while
inactive, nothing is forwarded. -/
def relayRun (r : TargetRelay) : List (Rat × Rat) → List TargetLocation
  | [] => []
  | p :: rest => if r.active then mkTarget p.1 p.2 :: relayRun r rest else relayRun r rest

example : feedOf [LoopItem.sample 1 2, LoopItem.modeChange, LoopItem.sample 3 4] = [(1, 2), (3, 4)] := by
  decide

example :
    runMain ⟨.success, fun _ => true, fun _ => true, .success, .success, .success, .success,
      .success, []⟩ 1 =
    some ([Event.addUdpConnection, Event.pollIsConnected, Event.pollHealthAllOk, Event.arm,
      Event.subscribeFlightMode, Event.takeoff, Event.sleep 5, Event.startFollowMe,
      Event.allocSession, Event.stopFollowMe, Event.land, Event.sleep 5], 0) := by
  decide

/-! Helper lemmas about the trace segments. -/

theorem mem_pollLoop {x e : Event} {k : Nat} (h : x ∈ pollLoop e k) :
    x = e ∨ x = Event.sleep 1 := by
  induction k with
  | zero =>
    simp [pollLoop] at h
    exact Or.inl h
  | succ n ih =>
    simp only [pollLoop, List.mem_cons] at h
    rcases h with h | h | h
    · exact Or.inl h
    · exact Or.inr h
    · exact ih h

theorem mem_loopEvents {x : Event} {l : List LoopItem} (h : x ∈ loopEvents l) :
    isLoopActivity x = true := by
  induction l with
  | nil => simp [loopEvents] at h
  | cons i rest ih =>
    cases i with
    | sample lat lon =>
      simp only [loopEvents, List.mem_cons] at h
      rcases h with h | h
      · subst h; rfl
      · exact ih h
    | modeChange =>
      simp only [loopEvents, List.mem_cons] at h
      rcases h with h | h
      · subst h; rfl
      · exact ih h

theorem loopActivity_followingOnly {x : Event} (h : isLoopActivity x = true) :
    isFollowingOnly x = true := by
  cases x <;> simp_all [isLoopActivity, isFollowingOnly]

theorem setTarget_followingOnly {x : Event} (h : isSetTarget x = true) :
    isFollowingOnly x = true := by
  cases x <;> simp_all [isSetTarget, isFollowingOnly]

theorem allocSession_followingOnly {x : Event} (h : isAllocSession x = true) :
    isFollowingOnly x = true := by
  cases x <;> simp_all [isAllocSession, isFollowingOnly]

theorem followingOnly_not_phaseCmd {x : Event} (h : isFollowingOnly x = true) :
    isPhaseCmd x = false := by
  cases x <;> simp_all [isFollowingOnly, isPhaseCmd]

theorem targetOf_eq_none {e : Event} (h : isSetTarget e = false) : targetOf e = none := by
  cases e <;> simp_all [targetOf, isSetTarget]

theorem sentTargets_append (a b : List Event) :
    sentTargets (a ++ b) = sentTargets a ++ sentTargets b := by
  simp [sentTargets]

theorem sentTargets_loopEvents (l : List LoopItem) :
    sentTargets (loopEvents l) = (feedOf l).map fun p => mkTarget p.1 p.2 := by
  induction l with
  | nil => simp [loopEvents, feedOf, sentTargets]
  | cons i rest ih =>
    cases i with
    | sample lat lon => simp [loopEvents, feedOf, sentTargets, targetOf] at ih ⊢; exact ih
    | modeChange => simp [loopEvents, feedOf, sentTargets, targetOf] at ih ⊢; exact ih

theorem sentTargets_eq_nil {l : List Event} (h : ∀ e ∈ l, isSetTarget e = false) :
    sentTargets l = [] := by
  induction l with
  | nil => simp [sentTargets]
  | cons x rest ih =>
    have hx : targetOf x = none := targetOf_eq_none (h x (by simp))
    have hr : sentTargets rest = [] := ih fun e he => h e (by simp [he])
    simp [sentTargets, hx] at hr ⊢
    exact hr

theorem pollLoop_no_followingOnly (e : Event) (he : isFollowingOnly e = false) (k : Nat) :
    ∀ x ∈ pollLoop e k, isFollowingOnly x = false := by
  intro x hx
  rcases mem_pollLoop hx with h | h
  · subst h; exact he
  · subst h; rfl

theorem pollUntil_none {pred : Nat → Bool} (h : ∀ n, pred n = false) (fuel : Nat) :
    pollUntil pred fuel = none := by
  unfold pollUntil
  exact List.find?_eq_none.mpr fun x _ => by simp [h x]

/-! Characterization of each terminating shape of the run. -/

theorem stageArm_all_success (env : Env) (tr : List Event)
    (ha : env.arm_result = .success) (ht : env.takeoff_result = .success)
    (hs : env.start_result = .success) (hp : env.stop_result = .success)
    (hl : env.land_result = .success) :
    stageArm env tr =
      (tr ++ [Event.arm, Event.subscribeFlightMode, Event.takeoff, Event.sleep 5,
        Event.startFollowMe, Event.allocSession] ++ loopEvents env.loop ++
        [Event.stopFollowMe, Event.land, Event.sleep 5], 0) := by
  simp [stageArm, ha, stageTakeoff, ht, stageStart, hs, stageStop, hp, stageLand, hl]

theorem stageArm_arm_fail (env : Env) (tr : List Event) (r : String)
    (ha : env.arm_result = .failure r) :
    stageArm env tr = (tr ++ [Event.arm, Event.stderr ("Arming failed" ++ r)], 1) := by
  simp [stageArm, ha]

theorem stageArm_takeoff_fail (env : Env) (tr : List Event) (r : String)
    (ha : env.arm_result = .success) (ht : env.takeoff_result = .failure r) :
    stageArm env tr =
      (tr ++ [Event.arm, Event.subscribeFlightMode, Event.takeoff,
        Event.stderr ("Takeoff failed" ++ r)], 1) := by
  simp [stageArm, ha, stageTakeoff, ht]

theorem stageArm_start_fail (env : Env) (tr : List Event) (r : String)
    (ha : env.arm_result = .success) (ht : env.takeoff_result = .success)
    (hs : env.start_result = .failure r) :
    stageArm env tr =
      (tr ++ [Event.arm, Event.subscribeFlightMode, Event.takeoff, Event.sleep 5,
        Event.startFollowMe, Event.stderr ("Failed to start FollowMe mode" ++ r)], 1) := by
  simp [stageArm, ha, stageTakeoff, ht, stageStart, hs]

theorem stageArm_stop_fail (env : Env) (tr : List Event) (r : String)
    (ha : env.arm_result = .success) (ht : env.takeoff_result = .success)
    (hs : env.start_result = .success) (hp : env.stop_result = .failure r) :
    stageArm env tr =
      (tr ++ [Event.arm, Event.subscribeFlightMode, Event.takeoff, Event.sleep 5,
        Event.startFollowMe, Event.allocSession] ++ loopEvents env.loop ++
        [Event.stopFollowMe, Event.stderr ("Failed to stop FollowMe mode" ++ r)], 1) := by
  simp [stageArm, ha, stageTakeoff, ht, stageStart, hs, stageStop, hp]

theorem stageArm_land_fail (env : Env) (tr : List Event) (r : String)
    (ha : env.arm_result = .success) (ht : env.takeoff_result = .success)
    (hs : env.start_result = .success) (hp : env.stop_result = .success)
    (hl : env.land_result = .failure r) :
    stageArm env tr =
      (tr ++ [Event.arm, Event.subscribeFlightMode, Event.takeoff, Event.sleep 5,
        Event.startFollowMe, Event.allocSession] ++ loopEvents env.loop ++
        [Event.stopFollowMe, Event.land, Event.stderr ("Landing failed" ++ r)], 1) := by
  simp [stageArm, ha, stageTakeoff, ht, stageStart, hs, stageStop, hp, stageLand, hl]

theorem runMain_conn_fail (env : Env) (fuel : Nat) (r : String)
    (hc : env.conn_result = .failure r) :
    runMain env fuel =
      some ([Event.addUdpConnection, Event.stderr ("Connection failed" ++ r)], 1) := by
  simp [runMain, hc]

theorem runMain_eq_stageArm (env : Env) (fuel k1 k2 : Nat) (hc : env.conn_result = .success)
    (h1 : pollUntil env.is_connected fuel = some k1)
    (h2 : pollUntil env.health_all_ok fuel = some k2) :
    runMain env fuel =
      some (stageArm env (Event.addUdpConnection ::
        (pollLoop Event.pollIsConnected k1 ++ pollLoop Event.pollHealthAllOk k2))) := by
  simp [runMain, hc, h1, h2]

theorem runMain_conn_poll_none (env : Env) (fuel : Nat) (hc : env.conn_result = .success)
    (h1 : pollUntil env.is_connected fuel = none) :
    runMain env fuel = none := by
  simp [runMain, hc, h1]

theorem runMain_health_poll_none (env : Env) (fuel : Nat) (hc : env.conn_result = .success)
    (h2 : pollUntil env.health_all_ok fuel = none) :
    runMain env fuel = none := by
  cases h1 : pollUntil env.is_connected fuel <;> simp [runMain, hc, h1, h2]

theorem mem_preTrace {x : Event} {k1 k2 : Nat}
    (h : x ∈ Event.addUdpConnection ::
      (pollLoop Event.pollIsConnected k1 ++ pollLoop Event.pollHealthAllOk k2)) :
    x = Event.addUdpConnection ∨ x = Event.pollIsConnected ∨ x = Event.pollHealthAllOk ∨
      x = Event.sleep 1 := by
  rcases List.mem_cons.mp h with h | h
  · exact Or.inl h
  · rcases List.mem_append.mp h with h | h
    · rcases mem_pollLoop h with h | h
      · exact Or.inr (Or.inl h)
      · exact Or.inr (Or.inr (Or.inr h))
    · rcases mem_pollLoop h with h | h
      · exact Or.inr (Or.inr (Or.inl h))
      · exact Or.inr (Or.inr (Or.inr h))

theorem preTrace_followingOnly_false {k1 k2 : Nat} :
    ∀ x ∈ Event.addUdpConnection ::
      (pollLoop Event.pollIsConnected k1 ++ pollLoop Event.pollHealthAllOk k2),
      isFollowingOnly x = false := by
  intro x hx
  rcases mem_preTrace hx with rfl | rfl | rfl | rfl <;> rfl

theorem preTrace_phaseCmd_false {k1 k2 : Nat} :
    ∀ x ∈ Event.addUdpConnection ::
      (pollLoop Event.pollIsConnected k1 ++ pollLoop Event.pollHealthAllOk k2),
      isPhaseCmd x = false := by
  intro x hx
  rcases mem_preTrace hx with rfl | rfl | rfl | rfl <;> rfl

theorem preTrace_setTarget_false {k1 k2 : Nat} :
    ∀ x ∈ Event.addUdpConnection ::
      (pollLoop Event.pollIsConnected k1 ++ pollLoop Event.pollHealthAllOk k2),
      isSetTarget x = false := by
  intro x hx
  rcases mem_preTrace hx with rfl | rfl | rfl | rfl <;> rfl

theorem free_not_mem_preTrace {k1 k2 : Nat} :
    Event.freeSession ∉ Event.addUdpConnection ::
      (pollLoop Event.pollIsConnected k1 ++ pollLoop Event.pollHealthAllOk k2) := by
  intro h
  rcases mem_preTrace h with h | h | h | h <;> simp at h

theorem free_not_mem_pollLoop (e : Event) (he : Event.freeSession ≠ e) (k : Nat) :
    Event.freeSession ∉ pollLoop e k := by
  intro h
  rcases mem_pollLoop h with h' | h'
  · exact he h'
  · exact Event.noConfusion h'

theorem free_not_mem_loopEvents (l : List LoopItem) : Event.freeSession ∉ loopEvents l := by
  intro h
  have := mem_loopEvents h
  simp [isLoopActivity] at this

theorem loopEvents_phaseCmd_false (l : List LoopItem) :
    ∀ x ∈ loopEvents l, isPhaseCmd x = false :=
  fun _ hx => followingOnly_not_phaseCmd (loopActivity_followingOnly (mem_loopEvents hx))

theorem containedInFollowing_of_all_false {p : Event → Bool} {tr : List Event}
    (h : ∀ e ∈ tr, p e = false) : containedInFollowing p tr :=
  ⟨tr, [], [], by simp, h, by simp, Or.inl rfl⟩

theorem containedInFollowing_mono {p q : Event → Bool} (hpq : ∀ e, p e = true → q e = true)
    {tr : List Event} (h : containedInFollowing q tr) : containedInFollowing p tr := by
  obtain ⟨a, b, c, rfl, ha, hc, hb⟩ := h
  refine ⟨a, b, c, rfl, ?_, ?_, hb⟩
  · intro e he
    cases hpe : p e with
    | false => rfl
    | true => exact absurd (hpq e hpe) (by simp [ha e he])
  · intro e he
    cases hpe : p e with
    | false => rfl
    | true => exact absurd (hpq e hpe) (by simp [hc e he])

theorem runMain_window (env : Env) (fuel : Nat) (tr : List Event) (code : Nat)
    (h : runMain env fuel = some (tr, code)) :
    containedInFollowing isFollowingOnly tr ∧ Event.freeSession ∉ tr := by
  cases hc : env.conn_result with
  | failure r =>
    rw [runMain_conn_fail env fuel r hc] at h
    simp only [Option.some.injEq, Prod.mk.injEq] at h
    obtain ⟨rfl, rfl⟩ := h
    constructor
    · refine containedInFollowing_of_all_false ?_
      intro e he
      simp only [List.mem_cons, List.not_mem_nil, or_false] at he
      rcases he with rfl | rfl <;> rfl
    · simp
  | success =>
    cases h1 : pollUntil env.is_connected fuel with
    | none =>
      rw [runMain_conn_poll_none env fuel hc h1] at h
      exact absurd h (by simp)
    | some k1 =>
      cases h2 : pollUntil env.health_all_ok fuel with
      | none =>
        rw [runMain_health_poll_none env fuel hc h2] at h
        exact absurd h (by simp)
      | some k2 =>
        rw [runMain_eq_stageArm env fuel k1 k2 hc h1 h2] at h
        simp only [Option.some.injEq] at h
        cases ha : env.arm_result with
        | failure r =>
          rw [stageArm_arm_fail env _ r ha] at h
          simp only [Prod.mk.injEq] at h
          obtain ⟨rfl, rfl⟩ := h
          constructor
          · refine containedInFollowing_of_all_false ?_
            intro e he
            rcases List.mem_append.mp he with he | he
            · exact preTrace_followingOnly_false e he
            · simp only [List.mem_cons, List.not_mem_nil, or_false] at he
              rcases he with rfl | rfl <;> rfl
          · intro hfree
            rcases List.mem_append.mp hfree with hf | hf
            · exact free_not_mem_preTrace hf
            · simp at hf
        | success =>
          cases ht : env.takeoff_result with
          | failure r =>
            rw [stageArm_takeoff_fail env _ r ha ht] at h
            simp only [Prod.mk.injEq] at h
            obtain ⟨rfl, rfl⟩ := h
            constructor
            · refine containedInFollowing_of_all_false ?_
              intro e he
              rcases List.mem_append.mp he with he | he
              · exact preTrace_followingOnly_false e he
              · simp only [List.mem_cons, List.not_mem_nil, or_false] at he
                rcases he with rfl | rfl | rfl | rfl <;> rfl
            · intro hfree
              rcases List.mem_append.mp hfree with hf | hf
              · exact free_not_mem_preTrace hf
              · simp at hf
          | success =>
            cases hs : env.start_result with
            | failure r =>
              rw [stageArm_start_fail env _ r ha ht hs] at h
              simp only [Prod.mk.injEq] at h
              obtain ⟨rfl, rfl⟩ := h
              constructor
              · refine containedInFollowing_of_all_false ?_
                intro e he
                rcases List.mem_append.mp he with he | he
                · exact preTrace_followingOnly_false e he
                · simp only [List.mem_cons, List.not_mem_nil, or_false] at he
                  rcases he with rfl | rfl | rfl | rfl | rfl | rfl <;> rfl
              · intro hfree
                rcases List.mem_append.mp hfree with hf | hf
                · exact free_not_mem_preTrace hf
                · simp at hf
            | success =>
              cases hp : env.stop_result with
              | failure r =>
                rw [stageArm_stop_fail env _ r ha ht hs hp] at h
                simp only [Prod.mk.injEq] at h
                obtain ⟨rfl, rfl⟩ := h
                constructor
                · refine ⟨(Event.addUdpConnection ::
                    (pollLoop Event.pollIsConnected k1 ++ pollLoop Event.pollHealthAllOk k2)) ++
                      [Event.arm, Event.subscribeFlightMode, Event.takeoff, Event.sleep 5],
                    Event.startFollowMe ::
                      ((Event.allocSession :: loopEvents env.loop) ++ [Event.stopFollowMe]),
                    [Event.stderr ("Failed to stop FollowMe mode" ++ r)], by simp, ?_, ?_, ?_⟩
                  · intro e he
                    rcases List.mem_append.mp he with he | he
                    · exact preTrace_followingOnly_false e he
                    · simp only [List.mem_cons, List.not_mem_nil, or_false] at he
                      rcases he with rfl | rfl | rfl | rfl <;> rfl
                  · intro e he
                    simp only [List.mem_cons, List.not_mem_nil, or_false] at he
                    rcases he with rfl <;> rfl
                  · exact Or.inr ⟨Event.allocSession :: loopEvents env.loop, rfl⟩
                · intro hfree
                  simp at hfree
                  rcases hfree with hf | hf | hf <;>
                    first
                      | exact free_not_mem_pollLoop Event.pollIsConnected (by simp) k1 hf
                      | exact free_not_mem_pollLoop Event.pollHealthAllOk (by simp) k2 hf
                      | exact free_not_mem_loopEvents env.loop hf
              | success =>
                cases hl : env.land_result with
                | failure r =>
                  rw [stageArm_land_fail env _ r ha ht hs hp hl] at h
                  simp only [Prod.mk.injEq] at h
                  obtain ⟨rfl, rfl⟩ := h
                  constructor
                  · refine ⟨(Event.addUdpConnection ::
                      (pollLoop Event.pollIsConnected k1 ++ pollLoop Event.pollHealthAllOk k2)) ++
                        [Event.arm, Event.subscribeFlightMode, Event.takeoff, Event.sleep 5],
                      Event.startFollowMe ::
                        ((Event.allocSession :: loopEvents env.loop) ++ [Event.stopFollowMe]),
                      [Event.land, Event.stderr ("Landing failed" ++ r)], by simp, ?_, ?_, ?_⟩
                    · intro e he
                      rcases List.mem_append.mp he with he | he
                      · exact preTrace_followingOnly_false e he
                      · simp only [List.mem_cons, List.not_mem_nil, or_false] at he
                        rcases he with rfl | rfl | rfl | rfl <;> rfl
                    · intro e he
                      simp only [List.mem_cons, List.not_mem_nil, or_false] at he
                      rcases he with rfl | rfl <;> rfl
                    · exact Or.inr ⟨Event.allocSession :: loopEvents env.loop, rfl⟩
                  · intro hfree
                    simp at hfree
                    rcases hfree with hf | hf | hf <;>
                      first
                        | exact free_not_mem_pollLoop Event.pollIsConnected (by simp) k1 hf
                        | exact free_not_mem_pollLoop Event.pollHealthAllOk (by simp) k2 hf
                        | exact free_not_mem_loopEvents env.loop hf
                | success =>
                  rw [stageArm_all_success env _ ha ht hs hp hl] at h
                  simp only [Prod.mk.injEq] at h
                  obtain ⟨rfl, rfl⟩ := h
                  constructor
                  · refine ⟨(Event.addUdpConnection ::
                      (pollLoop Event.pollIsConnected k1 ++ pollLoop Event.pollHealthAllOk k2)) ++
                        [Event.arm, Event.subscribeFlightMode, Event.takeoff, Event.sleep 5],
                      Event.startFollowMe ::
                        ((Event.allocSession :: loopEvents env.loop) ++ [Event.stopFollowMe]),
                      [Event.land, Event.sleep 5], by simp, ?_, ?_, ?_⟩
                    · intro e he
                      rcases List.mem_append.mp he with he | he
                      · exact preTrace_followingOnly_false e he
                      · simp only [List.mem_cons, List.not_mem_nil, or_false] at he
                        rcases he with rfl | rfl | rfl | rfl <;> rfl
                    · intro e he
                      simp only [List.mem_cons, List.not_mem_nil, or_false] at he
                      rcases he with rfl | rfl <;> rfl
                    · exact Or.inr ⟨Event.allocSession :: loopEvents env.loop, rfl⟩
                  · intro hfree
                    simp at hfree
                    rcases hfree with hf | hf | hf <;>
                      first
                        | exact free_not_mem_pollLoop Event.pollIsConnected (by simp) k1 hf
                        | exact free_not_mem_pollLoop Event.pollHealthAllOk (by simp) k2 hf
                        | exact free_not_mem_loopEvents env.loop hf

theorem pollLoop_filter_phaseCmd (e : Event) (he : isPhaseCmd e = false) (k : Nat) :
    (pollLoop e k).filter isPhaseCmd = [] :=
  List.filter_eq_nil_iff.mpr fun a hak => by
    rcases mem_pollLoop hak with rfl | rfl
    · simp [he]
    · simp [isPhaseCmd]

theorem sentTargets_preTrace (k1 k2 : Nat) :
    sentTargets (Event.addUdpConnection ::
      (pollLoop Event.pollIsConnected k1 ++ pollLoop Event.pollHealthAllOk k2)) = [] :=
  sentTargets_eq_nil preTrace_setTarget_false

/-- Claim C1: a complete run of the mission issues exactly one VehicleLink
command per command-requiring phase transition, in the fixed order arm,
takeoff, start-follow, stop-follow, land.  The filtered trace of
phase-transition commands is exactly that five-element sequence; each
command is awaited to completion before the next is attempted because the
embedding matches the result of every command before emitting any later
event, exactly as main does. -/
theorem claim_C1_command_order (env : Env) (fuel k1 k2 : Nat)
    (hc : env.conn_result = .success)
    (h1 : pollUntil env.is_connected fuel = some k1)
    (h2 : pollUntil env.health_all_ok fuel = some k2)
    (ha : env.arm_result = .success) (ht : env.takeoff_result = .success)
    (hs : env.start_result = .success) (hp : env.stop_result = .success)
    (hl : env.land_result = .success) :
    ∃ tr, runMain env fuel = some (tr, 0) ∧
      tr.filter isPhaseCmd =
        [Event.arm, Event.takeoff, Event.startFollowMe, Event.stopFollowMe, Event.land] := by
  have hrun := runMain_eq_stageArm env fuel k1 k2 hc h1 h2
  rw [stageArm_all_success env _ ha ht hs hp hl] at hrun
  have hle : List.filter isPhaseCmd (loopEvents env.loop) = [] :=
    List.filter_eq_nil_iff.mpr fun a hak => by simp [loopEvents_phaseCmd_false env.loop a hak]
  refine ⟨_, hrun, ?_⟩
  simp [List.filter_append, pollLoop_filter_phaseCmd Event.pollIsConnected rfl k1,
    pollLoop_filter_phaseCmd Event.pollHealthAllOk rfl k2, hle, isPhaseCmd]

/-- Witness for claim C1 at the nominal environment. -/
theorem claim_C1_witness :
    ∃ tr, runMain envNominal 1 = some (tr, 0) ∧
      tr.filter isPhaseCmd =
        [Event.arm, Event.takeoff, Event.startFollowMe, Event.stopFollowMe, Event.land] :=
  claim_C1_command_order envNominal 1 0 0 rfl (by decide) (by decide) rfl rfl rfl rfl rfl

/-- Claim C2: every VehicleLink command failure aborts the mission at once:
the process terminates with exit status 1, the trace holds a diagnostic
naming the phase followed by the collaborator-supplied reason string (the
diagnostic is the phase message with the reason appended), no later
VehicleLink command is issued, and in the arm case no takeoff, no follow
activity and no target push ever happens. -/
theorem claim_C2_abort_on_failure (env : Env) (fuel k1 k2 : Nat) (r : String)
    (h1 : pollUntil env.is_connected fuel = some k1)
    (h2 : pollUntil env.health_all_ok fuel = some k2) :
    (env.conn_result = .failure r →
      runMain env fuel =
        some ([Event.addUdpConnection, Event.stderr ("Connection failed" ++ r)], 1)) ∧
    (env.conn_result = .success → env.arm_result = .failure r →
      ∃ tr, runMain env fuel = some (tr, 1) ∧
        Event.stderr ("Arming failed" ++ r) ∈ tr ∧
        Event.takeoff ∉ tr ∧ Event.startFollowMe ∉ tr ∧ Event.stopFollowMe ∉ tr ∧
        Event.land ∉ tr ∧ sentTargets tr = []) ∧
    (env.conn_result = .success → env.arm_result = .success →
      env.takeoff_result = .failure r →
      ∃ tr, runMain env fuel = some (tr, 1) ∧
        Event.stderr ("Takeoff failed" ++ r) ∈ tr ∧
        Event.startFollowMe ∉ tr ∧ Event.stopFollowMe ∉ tr ∧ Event.land ∉ tr ∧
        sentTargets tr = []) ∧
    (env.conn_result = .success → env.arm_result = .success →
      env.takeoff_result = .success → env.start_result = .failure r →
      ∃ tr, runMain env fuel = some (tr, 1) ∧
        Event.stderr ("Failed to start FollowMe mode" ++ r) ∈ tr ∧
        Event.stopFollowMe ∉ tr ∧ Event.land ∉ tr ∧ sentTargets tr = []) ∧
    (env.conn_result = .success → env.arm_result = .success →
      env.takeoff_result = .success → env.start_result = .success →
      env.stop_result = .failure r →
      ∃ tr, runMain env fuel = some (tr, 1) ∧
        Event.stderr ("Failed to stop FollowMe mode" ++ r) ∈ tr ∧ Event.land ∉ tr) ∧
    (env.conn_result = .success → env.arm_result = .success →
      env.takeoff_result = .success → env.start_result = .success →
      env.stop_result = .success → env.land_result = .failure r →
      ∃ tr, runMain env fuel = some (tr, 1) ∧
        Event.stderr ("Landing failed" ++ r) ∈ tr) := by
  refine ⟨?_, ?_, ?_, ?_, ?_, ?_⟩
  · intro hc
    exact runMain_conn_fail env fuel r hc
  · intro hc ha
    have hrun := runMain_eq_stageArm env fuel k1 k2 hc h1 h2
    rw [stageArm_arm_fail env _ r ha] at hrun
    refine ⟨_, hrun, by simp, ?_, ?_, ?_, ?_, ?_⟩
    · intro h
      rcases List.mem_append.mp h with h | h
      · simpa [isPhaseCmd] using preTrace_phaseCmd_false _ h
      · simp at h
    · intro h
      rcases List.mem_append.mp h with h | h
      · simpa [isPhaseCmd] using preTrace_phaseCmd_false _ h
      · simp at h
    · intro h
      rcases List.mem_append.mp h with h | h
      · simpa [isPhaseCmd] using preTrace_phaseCmd_false _ h
      · simp at h
    · intro h
      rcases List.mem_append.mp h with h | h
      · simpa [isPhaseCmd] using preTrace_phaseCmd_false _ h
      · simp at h
    · rw [sentTargets_append, sentTargets_preTrace]
      simp [sentTargets, targetOf]
  · intro hc ha ht
    have hrun := runMain_eq_stageArm env fuel k1 k2 hc h1 h2
    rw [stageArm_takeoff_fail env _ r ha ht] at hrun
    refine ⟨_, hrun, by simp, ?_, ?_, ?_, ?_⟩
    · intro h
      rcases List.mem_append.mp h with h | h
      · simpa [isPhaseCmd] using preTrace_phaseCmd_false _ h
      · simp at h
    · intro h
      rcases List.mem_append.mp h with h | h
      · simpa [isPhaseCmd] using preTrace_phaseCmd_false _ h
      · simp at h
    · intro h
      rcases List.mem_append.mp h with h | h
      · simpa [isPhaseCmd] using preTrace_phaseCmd_false _ h
      · simp at h
    · rw [sentTargets_append, sentTargets_preTrace]
      simp [sentTargets, targetOf]
  · intro hc ha ht hs
    have hrun := runMain_eq_stageArm env fuel k1 k2 hc h1 h2
    rw [stageArm_start_fail env _ r ha ht hs] at hrun
    refine ⟨_, hrun, by simp, ?_, ?_, ?_⟩
    · intro h
      rcases List.mem_append.mp h with h | h
      · simpa [isPhaseCmd] using preTrace_phaseCmd_false _ h
      · simp at h
    · intro h
      rcases List.mem_append.mp h with h | h
      · simpa [isPhaseCmd] using preTrace_phaseCmd_false _ h
      · simp at h
    · rw [sentTargets_append, sentTargets_preTrace]
      simp [sentTargets, targetOf]
  · intro hc ha ht hs hp
    have hrun := runMain_eq_stageArm env fuel k1 k2 hc h1 h2
    rw [stageArm_stop_fail env _ r ha ht hs hp] at hrun
    refine ⟨_, hrun, by simp, ?_⟩
    intro h
    simp at h
    rcases h with h | h | h
    · rcases mem_pollLoop h with h2 | h2 <;> simp at h2
    · rcases mem_pollLoop h with h2 | h2 <;> simp at h2
    · have := mem_loopEvents h
      simp [isLoopActivity] at this
  · intro hc ha ht hs hp hl
    have hrun := runMain_eq_stageArm env fuel k1 k2 hc h1 h2
    rw [stageArm_land_fail env _ r ha ht hs hp hl] at hrun
    exact ⟨_, hrun, by simp⟩

/-- Witness for claim C2: the arm command fails with reason "reason" and the
run aborts with no takeoff, no follow activity and exit status 1. -/
theorem claim_C2_witness :
    ∃ tr, runMain envArmFail 1 = some (tr, 1) ∧
      Event.stderr ("Arming failed" ++ "reason") ∈ tr ∧
      Event.takeoff ∉ tr ∧ Event.startFollowMe ∉ tr ∧ Event.stopFollowMe ∉ tr ∧
      Event.land ∉ tr ∧ sentTargets tr = [] :=
  (claim_C2_abort_on_failure envArmFail 1 0 0 "reason" (by decide) (by decide)).2.1 rfl rfl

/-- Claim C8: if the vehicle never reports connected, or never reports
health-all-ok, the run blocks indefinitely in the corresponding readiness
poll (no amount of fuel makes it return), which is not an error exit; and
each busy-wait loop re-checks its predicate once per one-second sleep: a
loop with k failed polls holds exactly k one-second sleeps and k + 1
polls. -/
theorem claim_C8_blocking_readiness_poll (env : Env) (hc : env.conn_result = .success) :
    ((∀ n, env.is_connected n = false) → ∀ fuel, runMain env fuel = none) ∧
    ((∀ n, env.health_all_ok n = false) → ∀ fuel, runMain env fuel = none) ∧
    (∀ k, (pollLoop Event.pollIsConnected k).count (Event.sleep 1) = k ∧
      (pollLoop Event.pollIsConnected k).count Event.pollIsConnected = k + 1 ∧
      (pollLoop Event.pollHealthAllOk k).count (Event.sleep 1) = k ∧
      (pollLoop Event.pollHealthAllOk k).count Event.pollHealthAllOk = k + 1) := by
  refine ⟨?_, ?_, ?_⟩
  · intro h fuel
    exact runMain_conn_poll_none env fuel hc (pollUntil_none h fuel)
  · intro h fuel
    exact runMain_health_poll_none env fuel hc (pollUntil_none h fuel)
  · intro k
    induction k with
    | zero => refine ⟨by simp [pollLoop], by simp [pollLoop], by simp [pollLoop], by simp [pollLoop]⟩
    | succ n ih =>
      obtain ⟨i1, i2, i3, i4⟩ := ih
      refine ⟨?_, ?_, ?_, ?_⟩ <;> simp [pollLoop, List.count_cons, i1, i2, i3, i4]

/-- Witness for claim C8: with a vehicle that never reports connected the
run does not terminate, for a sample fuel bound. -/
theorem claim_C8_witness : runMain envNeverConnected 5 = none :=
  (claim_C8_blocking_readiness_poll envNeverConnected rfl).1 (fun _ => rfl) 5

/-- Claim C3: set_target_location is never issued while the phase is not
Following: in every terminating run, all target pushes lie inside one
trace segment that opens with the successful start-follow command and
closes with the stop-follow command, so no push happens before entering or
after leaving the Following phase. -/
theorem claim_C3_forwarding_window (env : Env) (fuel : Nat) (tr : List Event) (code : Nat)
    (h : runMain env fuel = some (tr, code)) :
    containedInFollowing isSetTarget tr :=
  containedInFollowing_mono (fun _ => setTarget_followingOnly)
    (runMain_window env fuel tr code h).1

/-- Witness for claim C3 at the nominal run. -/
theorem claim_C3_witness : containedInFollowing isSetTarget nominalTrace :=
  claim_C3_forwarding_window envNominal 1 nominalTrace 0 rfl

/-- Claim C4: in the nominal scenario (connect succeeds, the vehicle is
connected and healthy, arm, takeoff and start-follow succeed, the feed
emits (47.0, 8.5) then (47.001, 8.501) and terminates) the run makes
exactly two set_target_location calls carrying those coordinates with
altitude 0 and all velocity components 0, immediately followed by
stop-follow and then land, and the process exits with status 0. -/
theorem claim_C4_nominal_scenario :
    runMain envNominal 1 = some (nominalTrace, 0) ∧
    sentTargets nominalTrace = [⟨47, 8.5, 0, 0, 0, 0⟩, ⟨47.001, 8.501, 0, 0, 0, 0⟩] ∧
    ∃ u, nominalTrace = u ++
      [Event.setTargetLocation ⟨47, 8.5, 0, 0, 0, 0⟩,
        Event.setTargetLocation ⟨47.001, 8.501, 0, 0, 0, 0⟩,
        Event.stopFollowMe, Event.land, Event.sleep 5] := by
  refine ⟨rfl, rfl, ⟨[Event.addUdpConnection, Event.pollIsConnected,
    Event.pollHealthAllOk, Event.arm, Event.subscribeFlightMode, Event.takeoff, Event.sleep 5,
    Event.startFollowMe, Event.allocSession], rfl⟩⟩

/-- Claim C5: for every sequence of location samples delivered during the
Following phase, the set_target_location calls carry exactly those samples
in the same relative order (the pushed list equals the feed mapped to
target locations); the embedding issues the pushes strictly sequentially,
one at a time, so no two set-target commands are ever in flight together. -/
theorem claim_C5_order_preservation (env : Env) (fuel k1 k2 : Nat)
    (hc : env.conn_result = .success)
    (h1 : pollUntil env.is_connected fuel = some k1)
    (h2 : pollUntil env.health_all_ok fuel = some k2)
    (ha : env.arm_result = .success) (ht : env.takeoff_result = .success)
    (hs : env.start_result = .success) :
    ∃ tr code, runMain env fuel = some (tr, code) ∧
      sentTargets tr = (feedOf env.loop).map fun p => mkTarget p.1 p.2 := by
  have hrun := runMain_eq_stageArm env fuel k1 k2 hc h1 h2
  cases hp : env.stop_result with
  | failure r =>
    rw [stageArm_stop_fail env _ r ha ht hs hp] at hrun
    refine ⟨_, _, hrun, ?_⟩
    simp only [sentTargets_append, sentTargets_preTrace, sentTargets_loopEvents]
    simp [sentTargets, targetOf]
  | success =>
    cases hl : env.land_result with
    | failure r =>
      rw [stageArm_land_fail env _ r ha ht hs hp hl] at hrun
      refine ⟨_, _, hrun, ?_⟩
      simp only [sentTargets_append, sentTargets_preTrace, sentTargets_loopEvents]
      simp [sentTargets, targetOf]
    | success =>
      rw [stageArm_all_success env _ ha ht hs hp hl] at hrun
      refine ⟨_, _, hrun, ?_⟩
      simp only [sentTargets_append, sentTargets_preTrace, sentTargets_loopEvents]
      simp [sentTargets, targetOf]

/-- Witness for claim C5 at the nominal environment. -/
theorem claim_C5_witness :
    ∃ tr code, runMain envNominal 1 = some (tr, code) ∧
      sentTargets tr = (feedOf envNominal.loop).map fun p => mkTarget p.1 p.2 :=
  claim_C5_order_preservation envNominal 1 0 0 rfl (by decide) (by decide) rfl rfl rfl

/-- Claim C6 counterexample: in the nominal run the Following phase is
entered and exited (the session is allocated, stop-follow is issued, the
process exits normally), yet no release of the follow session ever appears
in the trace, so the session is not released on this exit path. -/
theorem claim_C6_counterexample :
    runMain envNominal 1 = some (nominalTrace, 0) ∧
    Event.allocSession ∈ nominalTrace ∧ Event.stopFollowMe ∈ nominalTrace ∧
    Event.freeSession ∉ nominalTrace := by
  refine ⟨rfl, by simp [nominalTrace], by simp [nominalTrace], by simp [nominalTrace]⟩

/-- Claim C6 as amended: the follow session is created only inside the
Following window (every allocation lies between the start-follow and the
stop-follow command) and the program emits nothing from the session
outside that window, but the session is never released: no terminating
run, on any exit path, holds a release of the session. -/
theorem claim_C6_session_never_released (env : Env) (fuel : Nat) (tr : List Event) (code : Nat)
    (h : runMain env fuel = some (tr, code)) :
    containedInFollowing isAllocSession tr ∧ Event.freeSession ∉ tr :=
  ⟨containedInFollowing_mono (fun _ => allocSession_followingOnly)
      (runMain_window env fuel tr code h).1,
    (runMain_window env fuel tr code h).2⟩

/-- Witness for the amended claim C6 at the nominal run. -/
theorem claim_C6_witness :
    containedInFollowing isAllocSession nominalTrace ∧ Event.freeSession ∉ nominalTrace :=
  claim_C6_session_never_released envNominal 1 nominalTrace 0 rfl

/-- Claim C7: the relay and status-observer subscriptions produce callback
activity only while the event loop is driven, and the loop is driven only
during the Following phase: in every terminating run, every relay push and
every status-observer callback lies inside the trace segment opened by the
successful start-follow command and closed by the stop-follow command. -/
theorem claim_C7_loop_only_in_following (env : Env) (fuel : Nat) (tr : List Event) (code : Nat)
    (h : runMain env fuel = some (tr, code)) :
    containedInFollowing isLoopActivity tr :=
  containedInFollowing_mono (fun _ => loopActivity_followingOnly)
    (runMain_window env fuel tr code h).1

/-- Witness for claim C7 at a run whose loop delivers a status notification
between location samples. -/
theorem claim_C7_witness : containedInFollowing isLoopActivity observerTrace :=
  claim_C7_loop_only_in_following envObserver 1 observerTrace 0 rfl

/-- Claim C9: deactivating the relay twice has the same observable effect
as deactivating it once: the relay states coincide and the forwarding
behaviour on every subsequent sample sequence coincides. -/
theorem claim_C9_deactivate_idempotent (r : TargetRelay) :
    r.deactivate.deactivate = r.deactivate ∧
    ∀ samples, relayRun r.deactivate.deactivate samples = relayRun r.deactivate samples :=
  ⟨rfl, fun _ => rfl⟩

/-- Claim C10: when the location feed terminates after delivering zero
samples, no set_target_location call is ever made, stop-follow is still
issued and, when it succeeds, land follows it; when both succeed the
process exits with status 0. -/
theorem claim_C10_empty_feed (env : Env) (fuel k1 k2 : Nat)
    (hc : env.conn_result = .success)
    (h1 : pollUntil env.is_connected fuel = some k1)
    (h2 : pollUntil env.health_all_ok fuel = some k2)
    (ha : env.arm_result = .success) (ht : env.takeoff_result = .success)
    (hs : env.start_result = .success) (hf : feedOf env.loop = []) :
    ∃ tr code, runMain env fuel = some (tr, code) ∧ sentTargets tr = [] ∧
      (∃ u v, tr = u ++ Event.stopFollowMe :: v ∧
        (env.stop_result = .success → ∃ v1 v2, v = v1 ++ Event.land :: v2)) ∧
      (env.stop_result = .success → env.land_result = .success → code = 0) := by
  have hrun := runMain_eq_stageArm env fuel k1 k2 hc h1 h2
  cases hp : env.stop_result with
  | failure r =>
    rw [stageArm_stop_fail env _ r ha ht hs hp] at hrun
    refine ⟨_, _, hrun, ?_, ?_, ?_⟩
    · simp only [sentTargets_append, sentTargets_preTrace, sentTargets_loopEvents, hf]
      simp [sentTargets, targetOf]
    · refine ⟨_, [Event.stderr ("Failed to stop FollowMe mode" ++ r)], rfl, ?_⟩
      intro hps
      exact CmdResult.noConfusion hps
    · intro hps
      exact CmdResult.noConfusion hps
  | success =>
    cases hl : env.land_result with
    | failure r =>
      rw [stageArm_land_fail env _ r ha ht hs hp hl] at hrun
      refine ⟨_, _, hrun, ?_, ?_, ?_⟩
      · simp only [sentTargets_append, sentTargets_preTrace, sentTargets_loopEvents, hf]
        simp [sentTargets, targetOf]
      · exact ⟨_, [Event.land, Event.stderr ("Landing failed" ++ r)], rfl,
          fun _ => ⟨[], [Event.stderr ("Landing failed" ++ r)], rfl⟩⟩
      · intro _ hls
        exact CmdResult.noConfusion hls
    | success =>
      rw [stageArm_all_success env _ ha ht hs hp hl] at hrun
      refine ⟨_, _, hrun, ?_, ?_, fun _ _ => rfl⟩
      · simp only [sentTargets_append, sentTargets_preTrace, sentTargets_loopEvents, hf]
        simp [sentTargets, targetOf]
      · exact ⟨_, [Event.land, Event.sleep 5], rfl,
          fun _ => ⟨[], [Event.sleep 5], rfl⟩⟩

/-- Witness for claim C10 at the empty-feed environment. -/
theorem claim_C10_witness :
    ∃ tr code, runMain envEmptyFeed 1 = some (tr, code) ∧ sentTargets tr = [] ∧
      (∃ u v, tr = u ++ Event.stopFollowMe :: v ∧
        (envEmptyFeed.stop_result = .success → ∃ v1 v2, v = v1 ++ Event.land :: v2)) ∧
      (envEmptyFeed.stop_result = .success → envEmptyFeed.land_result = .success → code = 0) :=
  claim_C10_empty_feed envEmptyFeed 1 0 0 rfl (by decide) (by decide) rfl rfl rfl rfl
